import Mathlib

/-!
# Verification of the SQLOtter validation and repository layer

This file is a shallow embedding, in Lean 4, of the input-validation layer
(`validators/input_validation.py`), the entity records (`models/`), and the
repository methods (`repositories/`) of the SQLOtter repository, together with
theorems settling the behavioural claims about them.

Modelling conventions:
* Python strings are `String` / `List Char`; only ASCII case folding and ASCII
  whitespace are modelled (the claims involve ASCII data only).
* Python floats (`amount`, `fee`, `balance`) are modelled as `Rat`: the code
  performs only comparisons and assignment on them, never arithmetic, and on
  finite non-NaN floats those comparisons agree with the rational order.
* Python exceptions become an explicit `Except PyError` result.  `uuid.UUID`,
  `min`, and the SQLAlchemy declarative constructor can raise `TypeError`;
  validators raise by returning a `ValueError` result in the caller.
* The database is an in-memory list of records per table; a repository method
  is a pure function from the table state (plus explicit parameters for the
  generated UUID and for whether the commit succeeds) to a result, the new
  table state, and the number of sessions opened and closed during the call.
  Query execution itself is modelled as infallible; commit failure is the
  modelled store failure.
* `created_at` / `updated_at` timestamp columns are omitted: no claim here
  observes them.
-/

set_option maxRecDepth 4000

/-- The Python exceptions that the modelled code can produce.  `dbError`
stands for an arbitrary store/commit failure re-raised by a repository. -/
inductive PyError where
  | valueError : String → PyError
  | typeError : String → PyError
  | dbError : PyError
deriving Repr, DecidableEq

/-- A Python value appearing in the `fields` dict of `update_user`
(`Dict[str, Any]` restricted to the types actually used: str and bool). -/
inductive PyVal where
  | str : String → PyVal
  | bool : Bool → PyVal
deriving Repr, DecidableEq

/-- Python truthiness of an `Optional[str]`: `None` and `""` are falsy. -/
def pyTruthy : Option String → Bool
  | none => false
  | some s => !(s == "")

/-! ## Character classes used by the regular expressions in
`validators/input_validation.py`.  Each regex there is anchored as
`^core$`; under `re.match` such a pattern matches a string iff `core`
matches the whole string or the whole string minus one trailing newline
(`$` also matches just before a final newline). -/

def isDigitChar (c : Char) : Bool := decide ('0' ≤ c) && decide (c ≤ '9')

def isLowerChar (c : Char) : Bool := decide ('a' ≤ c) && decide (c ≤ 'z')

def isUpperChar (c : Char) : Bool := decide ('A' ≤ c) && decide (c ≤ 'Z')

def isAlphaChar (c : Char) : Bool := isLowerChar c || isUpperChar c

def isHexDigitChar (c : Char) : Bool :=
  isDigitChar c || (decide ('a' ≤ c) && decide (c ≤ 'f')) ||
    (decide ('A' ≤ c) && decide (c ≤ 'F'))

/-- `core$` under `re.match`: the core matches the whole input, or the whole
input minus a single final newline. -/
def dollarNL (core : List Char → Bool) (cs : List Char) : Bool :=
  core cs || (cs.getLast? == some '\n' && core cs.dropLast)

/-- Bounded repetition of a character class followed by the end of the
pattern: `[cls]{lo,hi}` consuming the entire remaining input. -/
def repBetween (cls : Char → Bool) (lo hi : Nat) (cs : List Char) : Bool :=
  cs.all cls && decide (lo ≤ cs.length) && decide (cs.length ≤ hi)

/-! ## Python `int(s, 16)` and `uuid.UUID(hex=s)`

`InputValidator.validate_uuid` delegates to `uuid.UUID(value)`.  CPython
cleans the string (`.replace('urn:', '').replace('uuid:', '').strip('{}')
.replace('-', '')`), requires the result to have exactly 32 characters,
parses it with `int(_, 16)`, and finally requires `0 <= int < 2**128`.
`int(s, 16)` accepts surrounding whitespace, an optional sign, an optional
`0x`/`0X` prefix, and single underscores between digits (also one right
after the prefix).  Unicode digits and non-ASCII whitespace are not
modelled. -/

def pyWhitespace (c : Char) : Bool :=
  c == ' ' || c == '\t' || c == '\n' || c == '\r' || c == '\x0b' || c == '\x0c'

/-- Strip leading and trailing characters satisfying `p` (Python `str.strip`). -/
def stripEnds (p : Char → Bool) (cs : List Char) : List Char :=
  ((cs.dropWhile p).reverse.dropWhile p).reverse

def hexVal (c : Char) : Nat :=
  if isDigitChar c then c.toNat - '0'.toNat
  else if decide ('a' ≤ c) && decide (c ≤ 'f') then c.toNat - 'a'.toNat + 10
  else c.toNat - 'A'.toNat + 10

/-- The digit-consuming loop of CPython int parsing in base 16: hex digits
with single underscores allowed between digits.  `started` records whether
the previous consumed character was a digit. -/
def digitsLoop : List Char → Nat → Bool → Option Nat
  | [], acc, started => if started then some acc else none
  | c :: cs, acc, started =>
    if isHexDigitChar c then digitsLoop cs (16 * acc + hexVal c) true
    else if started && c == '_' then
      match cs with
      | [] => none
      | c2 :: cs2 =>
        if isHexDigitChar c2 then digitsLoop cs2 (16 * acc + hexVal c2) true
        else none
    else none

/-- Magnitude part of `int(s, 16)`: optional `0x`/`0X` prefix (an underscore
may directly follow the prefix), then digits. -/
def parseHexMagnitude (cs : List Char) : Option Nat :=
  match cs with
  | '0' :: x :: rest =>
    if x == 'x' || x == 'X' then
      match rest with
      | '_' :: rest2 => digitsLoop rest2 0 false
      | _ => digitsLoop rest 0 false
    else digitsLoop cs 0 false
  | _ => digitsLoop cs 0 false

/-- `int(s, 16)` on the cleaned UUID string: strip whitespace, optional
sign, magnitude. -/
def pyIntHex (cs : List Char) : Option Int :=
  match stripEnds pyWhitespace cs with
  | '+' :: rest => (parseHexMagnitude rest).map (fun n => (n : Int))
  | '-' :: rest => (parseHexMagnitude rest).map (fun n => -(n : Int))
  | rest => (parseHexMagnitude rest).map (fun n => (n : Int))

/-- Remove every occurrence of `urn:`, scanning left to right and
continuing after each removed occurrence (Python `str.replace`). -/
def stripUrn : List Char → List Char
  | 'u' :: 'r' :: 'n' :: ':' :: rest => stripUrn rest
  | c :: rest => c :: stripUrn rest
  | [] => []

/-- Remove every occurrence of `uuid:` (Python `str.replace`). -/
def stripUuidColon : List Char → List Char
  | 'u' :: 'u' :: 'i' :: 'd' :: ':' :: rest => stripUuidColon rest
  | c :: rest => c :: stripUuidColon rest
  | [] => []

def isBraceChar (c : Char) : Bool := c == '\x7b' || c == '\x7d'

/-- The string cleaning performed by `uuid.UUID.__init__` on its `hex`
argument. -/
def uuidClean (cs : List Char) : List Char :=
  (stripEnds isBraceChar (stripUuidColon (stripUrn cs))).filter (fun c => c != '-')

/-- The body of `uuid.UUID.__init__` after cleaning: the cleaned string
must have exactly 32 characters, parse with `int(_, 16)`, and give a value
in `[0, 2**128)`. -/
def pyUuidBody (h : List Char) : Bool :=
  decide (h.length = 32) &&
    (match pyIntHex h with
     | none => false
     | some v => decide (0 ≤ v) && decide (v < 2 ^ 128))

/-- Acceptance of `uuid.UUID(value)` for a string argument. -/
def pyUuidOk (cs : List Char) : Bool := pyUuidBody (uuidClean cs)

/-- `InputValidator.validate_uuid`: try `uuid.UUID(value)`, return `True` on
success and `False` on `ValueError`. -/
def validate_uuid (s : String) : Bool := pyUuidOk s.data

/-- `InputValidator.validate_uuid` applied to an `Optional[str]` argument.
`uuid.UUID(None)` raises `TypeError` (none of hex, bytes, bytes_le, fields,
int was given), which the `except ValueError` inside `validate_uuid` does
not catch, so it propagates to the caller. -/
def validate_uuid_py : Option String → Except PyError Bool
  | none => .error (.typeError "one of the hex, bytes, bytes_le, fields, or int arguments must be given")
  | some s => .ok (validate_uuid s)

/-! ## validate_email, validate_username -/

/-- The class `[a-zA-Z0-9._%+-]` of the email local part. -/
def emailLocalChar (c : Char) : Bool :=
  isAlphaChar c || isDigitChar c || c == '.' || c == '_' || c == '%' || c == '+' || c == '-'

/-- The class `[a-zA-Z0-9.-]` of the email domain part. -/
def emailDomainChar (c : Char) : Bool :=
  isAlphaChar c || isDigitChar c || c == '.' || c == '-'

/-- Core of `^[a-zA-Z0-9._%+-]+@[a-zA-Z0-9.-]+\.[a-zA-Z]{2,}$`.  Since `@`
belongs to neither class, a successful match must split at the first `@`;
the domain may split at any `.` whose suffix is two or more letters. -/
def emailCore (cs : List Char) : Bool :=
  let locPart := cs.takeWhile (fun c => c != '@')
  match cs.drop locPart.length with
  | '@' :: domain =>
    decide (1 ≤ locPart.length) && locPart.all emailLocalChar &&
      (List.range domain.length).any (fun i =>
        domain.get? i == some '.' &&
        decide (1 ≤ i) && (domain.take i).all emailDomainChar &&
        (domain.drop (i + 1)).all isAlphaChar && decide (2 ≤ (domain.drop (i + 1)).length))
  | _ => false

/-- `InputValidator.validate_email`. -/
def validate_email (email : String) : Bool := dollarNL emailCore email.data

/-- The class `[a-zA-Z0-9._-]` of `validate_username`. -/
def usernameChar (c : Char) : Bool :=
  isAlphaChar c || isDigitChar c || c == '.' || c == '_' || c == '-'

/-- `InputValidator.validate_username`: `^[a-zA-Z0-9._-]{3,50}$`. -/
def validate_username (username : String) : Bool :=
  dollarNL (repBetween usernameChar 3 50) username.data

/-! ## validate_crypto_address

The five currency patterns of `InputValidator.validate_crypto_address`,
with the character classes transcribed exactly as Python parses them.  In
particular, `[a-zA-H-HJ-NP-Z0-9]` in the BTC pattern parses as the items
`a-z`, `A-H`, literal `-`, literal `H`, `J-N`, `P-Z`, `0-9`. -/

def btcBodyChar (c : Char) : Bool :=
  isLowerChar c || (decide ('A' ≤ c) && decide (c ≤ 'H')) || c == '-' || c == 'H' ||
    (decide ('J' ≤ c) && decide (c ≤ 'N')) || (decide ('P' ≤ c) && decide (c ≤ 'Z')) ||
    isDigitChar c

/-- `^(bc1|[13])[a-zA-H-HJ-NP-Z0-9]{25,39}$` (core). -/
def btcCore : List Char → Bool
  | 'b' :: 'c' :: '1' :: rest => repBetween btcBodyChar 25 39 rest
  | c :: rest => (c == '1' || c == '3') && repBetween btcBodyChar 25 39 rest
  | [] => false

/-- `^0x[a-fA-F0-9]{40}$` (core). -/
def ethCore : List Char → Bool
  | '0' :: 'x' :: rest => repBetween isHexDigitChar 40 40 rest
  | _ => false

/-- The class `[a-km-zA-HJ-NP-Z1-9]` of the LTC pattern. -/
def ltcBodyChar (c : Char) : Bool :=
  (decide ('a' ≤ c) && decide (c ≤ 'k')) || (decide ('m' ≤ c) && decide (c ≤ 'z')) ||
    (decide ('A' ≤ c) && decide (c ≤ 'H')) || (decide ('J' ≤ c) && decide (c ≤ 'N')) ||
    (decide ('P' ≤ c) && decide (c ≤ 'Z')) || (decide ('1' ≤ c) && decide (c ≤ '9'))

/-- `^[LM3][a-km-zA-HJ-NP-Z1-9]{26,33}$` (core). -/
def ltcCore : List Char → Bool
  | c :: rest => (c == 'L' || c == 'M' || c == '3') && repBetween ltcBodyChar 26 33 rest
  | [] => false

/-- The class `[5-9A-HJ-NP-U]` of the second DOGE character. -/
def dogeSecondChar (c : Char) : Bool :=
  (decide ('5' ≤ c) && decide (c ≤ '9')) || (decide ('A' ≤ c) && decide (c ≤ 'H')) ||
    (decide ('J' ≤ c) && decide (c ≤ 'N')) || (decide ('P' ≤ c) && decide (c ≤ 'U'))

/-- The class `[1-9A-HJ-NP-Za-km-z]` of the DOGE body. -/
def dogeBodyChar (c : Char) : Bool :=
  (decide ('1' ≤ c) && decide (c ≤ '9')) || (decide ('A' ≤ c) && decide (c ≤ 'H')) ||
    (decide ('J' ≤ c) && decide (c ≤ 'N')) || (decide ('P' ≤ c) && decide (c ≤ 'Z')) ||
    (decide ('a' ≤ c) && decide (c ≤ 'k')) || (decide ('m' ≤ c) && decide (c ≤ 'z'))

/-- `^D{1}[5-9A-HJ-NP-U]{1}[1-9A-HJ-NP-Za-km-z]{32}$` (core). -/
def dogeCore : List Char → Bool
  | 'D' :: c2 :: rest => dogeSecondChar c2 && repBetween dogeBodyChar 32 32 rest
  | _ => false

/-- `^r[0-9a-zA-Z]{24,34}$` (core). -/
def xrpCore : List Char → Bool
  | 'r' :: rest => repBetween (fun c => isDigitChar c || isAlphaChar c) 24 34 rest
  | _ => false

/-- Keys of the `patterns` dict, in insertion order. -/
def cryptoCurrencies : List String := ["BTC", "ETH", "LTC", "DOGE", "XRP"]

/-- `patterns[currency]` applied to an address via `re.match`. -/
def matchCurrencyPattern (c : String) (address : String) : Bool :=
  if c == "BTC" then dollarNL btcCore address.data
  else if c == "ETH" then dollarNL ethCore address.data
  else if c == "LTC" then dollarNL ltcCore address.data
  else if c == "DOGE" then dollarNL dogeCore address.data
  else if c == "XRP" then dollarNL xrpCore address.data
  else false

/-- The fallback loop over all patterns, in dict order. -/
def anyCurrencyPattern (address : String) : Bool :=
  dollarNL btcCore address.data || dollarNL ethCore address.data ||
    dollarNL ltcCore address.data || dollarNL dogeCore address.data ||
    dollarNL xrpCore address.data

/-- `InputValidator.validate_crypto_address(address, currency=None)`: if
`currency` is truthy and a key of `patterns`, match that pattern only;
otherwise fall back to matching every pattern. -/
def validate_crypto_address (address : String) (currency : Option String) : Bool :=
  match currency with
  | some c =>
    if pyTruthy (some c) && cryptoCurrencies.contains c then matchCurrencyPattern c address
    else anyCurrencyPattern address
  | none => anyCurrencyPattern address

/-- The characters removed by `InputValidator.sanitize_string`
(`re.sub` of the class containing single quote, semicolon, double quote,
backslash with the empty string). -/
def sqlBannedChars : List Char := [Char.ofNat 39, Char.ofNat 59, Char.ofNat 34, Char.ofNat 92]

/-- `InputValidator.sanitize_string`. -/
def sanitize_string (s : String) : String :=
  String.mk (s.data.filter (fun c => !(sqlBannedChars.contains c)))

/-! ## Entity records (`models/`)

Fields mirror the declarative models; `created_at` / `updated_at` are
omitted (see header).  Note that in `models/transaction.py` the destination
address column is spelled `desination_address`. -/

structure User where
  id : String
  email : String
  username : String
  password_hash : String
  is_active : PyVal
  is_verified : PyVal
deriving Repr, DecidableEq

structure Wallet where
  id : String
  user_id : String
  currency : String
  address : String
  balance : Rat
  is_active : Bool
deriving Repr, DecidableEq

structure Transaction where
  id : String
  user_id : String
  wallet_id : String
  transaction_type : String
  amount : Rat
  fee : Rat
  desination_address : Option String
  tx_hash : Option String
  status : String
deriving Repr, DecidableEq

instance {ε α : Type} [DecidableEq ε] [DecidableEq α] : DecidableEq (Except ε α)
  | .error a, .error b => decidable_of_iff (a = b) (by simp)
  | .error _, .ok _ => isFalse (by simp)
  | .ok _, .error _ => isFalse (by simp)
  | .ok a, .ok b => decidable_of_iff (a = b) (by simp)

/-- Outcome of one repository method call: the Python result or exception,
the table state after the call, and how many database sessions the call
opened and closed. -/
structure MethodOut (σ : Type) (α : Type) where
  result : Except PyError α
  state : σ
  opened : Nat
  closed : Nat
deriving Repr, DecidableEq

/-- Case-insensitive SQL `LIKE` with `%` and `_` wildcards (ASCII case
folding), as used by `.ilike(...)`. -/
def likeMatch : List Char → List Char → Bool
  | [], cs => cs.isEmpty
  | '%' :: ps, cs => (cs.tails.any (fun suf => likeMatch ps suf))
  | '_' :: ps, _ :: cs => likeMatch ps cs
  | p :: ps, c :: cs => p.toLower == c.toLower && likeMatch ps cs
  | _ :: _, [] => false

/-- `column.ilike(pat)` for a non-nullable string column. -/
def ilike (pat : String) (s : String) : Bool := likeMatch pat.data s.data

/-- `column.ilike(pat)` for a nullable column: SQL `NULL LIKE x` is not
true, so a NULL column never matches. -/
def ilikeOpt (pat : String) : Option String → Bool
  | none => false
  | some s => ilike pat s

/-- The limit clamp `min(max(1, limit), 100)` used by
`UserRepository.search_users` and
`TransactionRepository.search_transactions`. -/
def clampLimit (l : Int) : Int := min (max 1 l) 100

/-! ## UserRepository (`repositories/user_repo.py`) -/

/-- `UserRepository.create_user`.  `fresh_id` is the generated
`str(uuid.uuid4())`; `commitOk` says whether `session.commit()` succeeds
(e.g. no unique-constraint violation).  The `try/except/finally` commits,
or rolls back and re-raises, and closes the session on both paths. -/
def create_user (db : List User) (fresh_id email username password_hash : String)
    (commitOk : Bool) : MethodOut (List User) User :=
  if !(validate_email email) then ⟨.error (.valueError "Invalid email format"), db, 0, 0⟩
  else if !(validate_username username) then ⟨.error (.valueError "Invalid username format"), db, 0, 0⟩
  else
    let u : User := ⟨fresh_id, email, username, password_hash, .bool true, .bool false⟩
    if commitOk then ⟨.ok u, db ++ [u], 1, 1⟩
    else ⟨.error .dbError, db, 1, 1⟩

/-- `UserRepository.get_user_by_id`: validate, then `first()` inside
`try/finally close`. -/
def get_user_by_id (db : List User) (user_id : String) : MethodOut (List User) (Option User) :=
  if !(validate_uuid user_id) then ⟨.error (.valueError "Invalid user ID format"), db, 0, 0⟩
  else ⟨.ok (db.find? (fun u => u.id == user_id)), db, 1, 1⟩

/-- `UserRepository.get_user_by_email`. -/
def get_user_by_email (db : List User) (email : String) : MethodOut (List User) (Option User) :=
  if !(validate_email email) then ⟨.error (.valueError "Invalid email format"), db, 0, 0⟩
  else ⟨.ok (db.find? (fun u => u.email == email)), db, 1, 1⟩

/-- `UserRepository.search_users`: sanitize the term, open a session, clamp
the limit, and filter `username ILIKE pat, email ILIKE pat` — two filter
arguments, which SQLAlchemy combines with AND. -/
def search_users (db : List User) (search_term : String) (limit : Int) :
    MethodOut (List User) (List User) :=
  let t := sanitize_string search_term
  let lim := clampLimit limit
  let pat := "%" ++ t.data.asString ++ "%"
  ⟨.ok (((db.filter (fun u => ilike pat u.username && ilike pat u.email)).take lim.toNat)), db, 1, 1⟩

/-- The set `allowed_fields` of `UserRepository.update_user`. -/
def allowed_fields : List String := ["email", "username", "is_active", "is_verified"]

/-- The field-filtering loop of `UserRepository.update_user`: skip
disallowed names, validate email/username values (raising `ValueError` on
bad values, and `TypeError` if `re.match` receives a non-string), and
collect the surviving pairs in iteration order.  Stops at the first
raising field, as the Python loop does. -/
def build_update_data : List (String × PyVal) → Except PyError (List (String × PyVal))
  | [] => .ok []
  | (f, v) :: rest =>
    if !(allowed_fields.contains f) then build_update_data rest
    else if f == "email" then
      match v with
      | .str s =>
        if !(validate_email s) then .error (.valueError "Invalid email format")
        else (build_update_data rest).map (fun l => (f, v) :: l)
      | .bool _ => .error (.typeError "expected string or bytes-like object")
    else if f == "username" then
      match v with
      | .str s =>
        if !(validate_username s) then .error (.valueError "Invalid username format")
        else (build_update_data rest).map (fun l => (f, v) :: l)
      | .bool _ => .error (.typeError "expected string or bytes-like object")
    else (build_update_data rest).map (fun l => (f, v) :: l)

/-- `setattr(user, field, value)` for the allowed fields.  The email and
username branches are only reachable with string values (validated
upstream); other shapes leave the record unchanged. -/
def applyUserField (u : User) : String × PyVal → User
  | ("email", .str s) => { u with email := s }
  | ("username", .str s) => { u with username := s }
  | ("is_active", v) => { u with is_active := v }
  | ("is_verified", v) => { u with is_verified := v }
  | _ => u

/-- `UserRepository.update_user`.  Returns `some false` where Python
returns `False`; Python falls off the end of the function after a
successful commit (there is no `return True`) and also after the `except`
branch (which logs but does not re-raise), returning `None` — modelled as
`none`. -/
def update_user (db : List User) (user_id : String) (fields : List (String × PyVal))
    (commitOk : Bool) : MethodOut (List User) (Option Bool) :=
  if !(validate_uuid user_id) then ⟨.error (.valueError "Invalid user ID format"), db, 0, 0⟩
  else
    match build_update_data fields with
    | .error e => ⟨.error e, db, 0, 0⟩
    | .ok upd =>
      if upd.isEmpty then ⟨.ok (some false), db, 0, 0⟩
      else
        match db.find? (fun u => u.id == user_id) with
        | none => ⟨.ok (some false), db, 1, 1⟩
        | some _ =>
          if commitOk then
            ⟨.ok none, db.map (fun u => if u.id == user_id then upd.foldl applyUserField u else u), 1, 1⟩
          else ⟨.ok none, db, 1, 1⟩

/-! ## WalletRepository (`repositories/wallet_repo.py`) -/

/-- `WalletRepository.create_wallet`. -/
def create_wallet (db : List Wallet) (fresh_id user_id currency address : String)
    (commitOk : Bool) : MethodOut (List Wallet) Wallet :=
  if !(validate_uuid user_id) then ⟨.error (.valueError "Invalid user ID format"), db, 0, 0⟩
  else if !(validate_crypto_address address (some currency)) then
    ⟨.error (.valueError "Invalid crypto address"), db, 0, 0⟩
  else
    let w : Wallet := ⟨fresh_id, user_id, currency, address, 0, true⟩
    if commitOk then ⟨.ok w, db ++ [w], 1, 1⟩
    else ⟨.error .dbError, db, 1, 1⟩

/-- `WalletRepository.get_wallet_by_id`. -/
def get_wallet_by_id (db : List Wallet) (wallet_id : String) :
    MethodOut (List Wallet) (Option Wallet) :=
  if !(validate_uuid wallet_id) then ⟨.error (.valueError "Invalid wallet ID format"), db, 0, 0⟩
  else ⟨.ok (db.find? (fun w => w.id == wallet_id)), db, 1, 1⟩

/-- `WalletRepository.get_user_wallets`. -/
def get_user_wallets (db : List Wallet) (user_id : String) :
    MethodOut (List Wallet) (List Wallet) :=
  if !(validate_uuid user_id) then ⟨.error (.valueError "Invalid user ID format"), db, 0, 0⟩
  else ⟨.ok (db.filter (fun w => w.user_id == user_id)), db, 1, 1⟩

/-- `WalletRepository.update_wallet_balance`.  A negative balance raises
`ValueError` before any session is opened.  When no wallet matches, the
code executes `raise False`; raising a non-exception object itself raises
`TypeError`, which the `except Exception` clause catches, rolling back and
returning `False`.  On a failing commit the exception is likewise
swallowed into `False`.  The `finally` clause closes the session on every
session path.  Wallet ids are primary keys, so the first match is the only
match; the model updates every row with the id. -/
def update_wallet_balance (db : List Wallet) (wallet_id : String) (new_balance : Rat)
    (commitOk : Bool) : MethodOut (List Wallet) Bool :=
  if !(validate_uuid wallet_id) then ⟨.error (.valueError "Invalid wallet ID format"), db, 0, 0⟩
  else if new_balance < 0 then ⟨.error (.valueError "Balance cannot be negative"), db, 0, 0⟩
  else
    match db.find? (fun w => w.id == wallet_id) with
    | none => ⟨.ok false, db, 1, 1⟩
    | some _ =>
      if commitOk then
        ⟨.ok true, db.map (fun w => if w.id == wallet_id then { w with balance := new_balance } else w), 1, 1⟩
      else ⟨.ok false, db, 1, 1⟩

/-! ## TransactionRepository (`repositories/tx_repo.py`) -/

/-- The column and relationship attributes of the declarative `Transaction`
model in `models/transaction.py`.  The destination address column is
misspelled `desination_address`. -/
def transactionModelAttrs : List String :=
  ["id", "user_id", "wallet_id", "transaction_type", "amount", "fee",
   "desination_address", "tx_hash", "status", "created_at", "updated_at",
   "user", "wallet"]

/-- The keyword arguments `create_transaction` passes to
`Transaction(...)`.  `destination_address` is not an attribute of the
model, and the SQLAlchemy declarative constructor raises `TypeError` on
any unknown keyword argument. -/
def createTransactionKwargs : List String :=
  ["id", "user_id", "wallet_id", "transaction_type", "amount", "fee",
   "destination_address", "status"]

/-- Lines 86–94 of `tx_repo.py`: the session block of `create_transaction`.
`session.add` + `session.commit()` inside `try`, with an `except` clause
that rolls back, logs and re-raises — and no `finally` clause, so neither
path calls `session.close()`. -/
def create_transaction_session_block (db : List Transaction) (tx : Transaction)
    (commitOk : Bool) : MethodOut (List Transaction) Transaction :=
  if commitOk then ⟨.ok tx, db ++ [tx], 1, 0⟩
  else ⟨.error .dbError, db, 1, 0⟩

/-- `TransactionRepository.create_transaction`.  The whitelist check uses
the misspelled value `tranfer`.  The destination address is validated only
when the type is `withdrawal` *and* the address is truthy.  Constructing
the record with the kwargs above raises `TypeError` whenever they are not
all attributes of the model — which is always, because of the misspelled
column — so the session block is unreachable. -/
def create_transaction (db : List Transaction) (fresh_id user_id wallet_id transaction_type : String)
    (amount fee : Rat) (destination_address : Option String) (commitOk : Bool) :
    MethodOut (List Transaction) Transaction :=
  if !(validate_uuid user_id) then ⟨.error (.valueError "Invalid user ID format"), db, 0, 0⟩
  else if !(validate_uuid wallet_id) then ⟨.error (.valueError "Invalid wallet ID format"), db, 0, 0⟩
  else if !(["deposit", "withdrawal", "tranfer"].contains transaction_type) then
    ⟨.error (.valueError "Invalid transaction type"), db, 0, 0⟩
  else if amount ≤ 0 then ⟨.error (.valueError "Amount must be positive"), db, 0, 0⟩
  else if fee < 0 then ⟨.error (.valueError "Fee cannot be negative"), db, 0, 0⟩
  else if transaction_type == "withdrawal" && pyTruthy destination_address &&
      !(validate_crypto_address (destination_address.getD "") none) then
    ⟨.error (.valueError "Invalid destination address format"), db, 0, 0⟩
  else if createTransactionKwargs.all (fun k => transactionModelAttrs.contains k) then
    create_transaction_session_block db
      ⟨fresh_id, user_id, wallet_id, transaction_type, amount, fee, destination_address, none, "pending"⟩
      commitOk
  else ⟨.error (.typeError "destination_address is an invalid keyword argument for Transaction"), db, 0, 0⟩

/-- `TransactionRepository.get_transaction_by_id`. -/
def get_transaction_by_id (db : List Transaction) (transaction_id : String) :
    MethodOut (List Transaction) (Option Transaction) :=
  if !(validate_uuid transaction_id) then ⟨.error (.valueError "Invalid transaction ID format"), db, 0, 0⟩
  else ⟨.ok (db.find? (fun tx => tx.id == transaction_id)), db, 1, 1⟩

/-- `TransactionRepository.get_user_transactions`.  After the session is
opened, the first statement of the `try` block is
`limit = min((1, limit), 100)`, which compares the tuple `(1, limit)` with
the int `100` and therefore raises `TypeError` unconditionally; the
`finally` clause still closes the session.  The query below that line is
dead code. -/
def get_user_transactions (db : List Transaction) (user_id : String) (limit offset : Int)
    (transaction_type status : Option String) : MethodOut (List Transaction) (List Transaction) :=
  if !(validate_uuid user_id) then ⟨.error (.valueError "Invalid user ID format"), db, 0, 0⟩
  else ⟨.error (.typeError "comparison not supported between instances of int and tuple"), db, 1, 1⟩

/-- `TransactionRepository.update_transaction_status`. -/
def update_transaction_status (db : List Transaction) (transaction_id status : String)
    (tx_hash : Option String) (commitOk : Bool) : MethodOut (List Transaction) Bool :=
  if !(validate_uuid transaction_id) then ⟨.error (.valueError "Invalid transaction ID format"), db, 0, 0⟩
  else if !(["pending", "completed", "failed"].contains status) then
    ⟨.error (.valueError "Invalid transaction status"), db, 0, 0⟩
  else
    match db.find? (fun tx => tx.id == transaction_id) with
    | none => ⟨.ok false, db, 1, 1⟩
    | some _ =>
      if commitOk then
        ⟨.ok true,
         db.map (fun tx =>
           if tx.id == transaction_id then
             { tx with status := status,
                       tx_hash := if pyTruthy tx_hash then tx_hash else tx.tx_hash }
           else tx), 1, 1⟩
      else ⟨.error .dbError, db, 1, 1⟩

/-- `TransactionRepository.search_transactions`.  The term is sanitized,
then `validate_uuid(user_id)` runs unconditionally: with the default
`user_id=None` this calls `uuid.UUID(None)`, whose `TypeError` is not
caught (only `ValueError` is), so it propagates before any session is
opened — making the `else: return []` branch below unreachable.  The OR
filter matches id, `tx_hash` and the (misspelled) `desination_address`
column case-insensitively. -/
def search_transactions (db : List Transaction) (search_term : String) (limit : Int)
    (user_id : Option String) : MethodOut (List Transaction) (List Transaction) :=
  let t := sanitize_string search_term
  match validate_uuid_py user_id with
  | .error e => ⟨.error e, db, 0, 0⟩
  | .ok valid =>
    if !valid then ⟨.error (.valueError "Invalid user ID format"), db, 0, 0⟩
    else
      let lim := clampLimit limit
      let pat := "%" ++ t.data.asString ++ "%"
      match user_id with
      | none => ⟨.ok [], db, 1, 1⟩
      | some uid =>
        if uid == "" then ⟨.ok [], db, 1, 1⟩
        else
          ⟨.ok (((db.filter (fun tx => tx.user_id == uid)).filter (fun tx =>
              ilike pat tx.id || ilikeOpt pat tx.tx_hash || ilikeOpt pat tx.desination_address)).take lim.toNat),
           db, 1, 1⟩

/-! ## Concrete records used in counterexamples and witnesses -/

def uuidZero : String := "00000000-0000-0000-0000-000000000000"

def uuidOne : String := "11111111-1111-1111-1111-111111111111"

/-- A user whose username contains `ali` but whose email does not. -/
def aliceUser : User := ⟨uuidZero, "bob@example.com", "alice", "hash", .bool true, .bool false⟩

/-! ## Theorems for the claims -/

/-- Helper for C9: a field map containing no allowed names survives the
update_user loop as the empty `update_data`. -/
theorem build_update_data_disallowed :
    ∀ fields : List (String × PyVal),
      (∀ p ∈ fields, allowed_fields.contains p.1 = false) →
      build_update_data fields = .ok [] := by
  intro fields
  induction fields with
  | nil => intro _; rfl
  | cons p rest ih =>
    intro hf
    have h1 : ¬ (p.1 ∈ allowed_fields) := by simpa using hf p (by simp)
    obtain ⟨f, v⟩ := p
    unfold build_update_data
    simp only at h1
    simp [h1, ih (fun q hq => hf q (by simp [hq]))]

/-- C1 (counterexample): `update_wallet_balance` with a syntactically valid
wallet id and a negative balance does not return `False`; it raises
`ValueError`, contradicting the fail-closed claim. -/
theorem C1_counterexample :
    ¬ ((update_wallet_balance [] uuidZero (-1) true).result = .ok false) ∧
    (update_wallet_balance [] uuidZero (-1) true).result =
      .error (.valueError "Balance cannot be negative") := by
  constructor
  · decide
  · decide

/-- C1 (amended): for a syntactically valid wallet id,
`update_wallet_balance` raises `ValueError` when the new balance is
negative (leaving the store untouched, no session opened), and returns
`False` without mutating any stored wallet when no wallet with the id
exists (the internal `raise False` is caught by `except Exception`). -/
theorem C1_update_wallet_balance_amended (db : List Wallet) (wallet_id : String)
    (new_balance : Rat) (commitOk : Bool) (hid : validate_uuid wallet_id = true) :
    (new_balance < 0 →
      update_wallet_balance db wallet_id new_balance commitOk =
        ⟨.error (.valueError "Balance cannot be negative"), db, 0, 0⟩) ∧
    (0 ≤ new_balance → db.find? (fun w => w.id == wallet_id) = none →
      update_wallet_balance db wallet_id new_balance commitOk = ⟨.ok false, db, 1, 1⟩) := by
  constructor
  · intro hneg
    unfold update_wallet_balance
    simp [hid, hneg]
  · intro hpos habs
    unfold update_wallet_balance
    simp [hid, not_lt.mpr hpos, habs]

/-- C1 (witness): both amended branches at concrete inputs. -/
theorem C1_witness :
    update_wallet_balance [] uuidZero (-1) true =
      ⟨.error (.valueError "Balance cannot be negative"), [], 0, 0⟩ ∧
    update_wallet_balance [] uuidZero 5 true = ⟨.ok false, [], 1, 1⟩ :=
  ⟨(C1_update_wallet_balance_amended [] uuidZero (-1) true (by decide)).1 (by decide),
   (C1_update_wallet_balance_amended [] uuidZero 5 true (by decide)).2 (by decide) (by decide)⟩

/-- C2: calling `search_transactions` without a `user_id` does not return
an empty list — `uuid.UUID(None)` raises `TypeError`, which
`validate_uuid` does not catch, so the call raises before opening a
session.  (The `else: return []` branch in the code is unreachable.) -/
theorem C2_search_transactions_no_user_id (db : List Transaction)
    (search_term : String) (limit : Int) :
    search_transactions db search_term limit none =
      ⟨.error (.typeError "one of the hex, bytes, bytes_le, fields, or int arguments must be given"),
       db, 0, 0⟩ := rfl

/-- C3: with valid user and wallet UUIDs, `create_transaction` rejects the
transaction type `transfer` with an invalid-input `ValueError`, because the
whitelist contains the misspelled value `tranfer`. -/
theorem C3_create_transaction_rejects_transfer (db : List Transaction)
    (fresh_id user_id wallet_id : String) (amount fee : Rat)
    (destination_address : Option String) (commitOk : Bool)
    (hu : validate_uuid user_id = true) (hw : validate_uuid wallet_id = true) :
    create_transaction db fresh_id user_id wallet_id "transfer" amount fee
        destination_address commitOk =
      ⟨.error (.valueError "Invalid transaction type"), db, 0, 0⟩ := by
  unfold create_transaction
  simp [hu, hw]

/-- C3 (witness). -/
theorem C3_witness :
    create_transaction [] "t0" uuidZero uuidOne "transfer" 1 0 none true =
      ⟨.error (.valueError "Invalid transaction type"), [], 0, 0⟩ :=
  C3_create_transaction_rejects_transfer [] "t0" uuidZero uuidOne 1 0 none true
    (by decide) (by decide)

/-- C4: a withdrawal with an absent (`None`) destination address does not
raise an invalid-input error for the missing address: the
`transaction_type == 'withdrawal' and destination_address` guard skips
validation for falsy addresses, and the call then raises `TypeError`
because `Transaction(...)` is given the keyword `destination_address`
while the model column is misspelled `desination_address`.  No session is
opened and nothing is stored. -/
theorem C4_withdrawal_missing_address (db : List Transaction)
    (fresh_id user_id wallet_id : String) (amount fee : Rat) (commitOk : Bool)
    (hu : validate_uuid user_id = true) (hw : validate_uuid wallet_id = true)
    (ha : 0 < amount) (hf : 0 ≤ fee) :
    create_transaction db fresh_id user_id wallet_id "withdrawal" amount fee none commitOk =
      ⟨.error (.typeError "destination_address is an invalid keyword argument for Transaction"),
       db, 0, 0⟩ := by
  unfold create_transaction
  simp only [hu, hw]
  simp [not_le.mpr ha, not_lt.mpr hf, pyTruthy]
  intro hx
  exact absurd (hx "destination_address" (by decide)) (by decide)

/-- C4 (witness). -/
theorem C4_witness :
    create_transaction [] "t0" uuidZero uuidOne "withdrawal" 1 0 none true =
      ⟨.error (.typeError "destination_address is an invalid keyword argument for Transaction"),
       [], 0, 0⟩ :=
  C4_withdrawal_missing_address [] "t0" uuidZero uuidOne 1 0 true
    (by decide) (by decide) (by decide) (by decide)

/-- C5: the clamp `min(max(1, limit), 100)` used by `search_users` and
`search_transactions` indeed maps every integer into 1..100 (below 1 to 1,
above 100 to 100); but `get_user_transactions` never reaches a query at
all — its `limit = min((1, limit), 100)` compares a tuple with an int and
raises `TypeError` for every valid user id and every limit. -/
theorem C5_limit_clamp_and_get_user_transactions :
    (∀ l : Int, 1 ≤ clampLimit l ∧ clampLimit l ≤ 100) ∧
    (∀ l : Int, l < 1 → clampLimit l = 1) ∧
    (∀ l : Int, 100 < l → clampLimit l = 100) ∧
    (∀ (db : List Transaction) (user_id : String) (limit offset : Int)
       (tt st : Option String), validate_uuid user_id = true →
       get_user_transactions db user_id limit offset tt st =
         ⟨.error (.typeError "comparison not supported between instances of int and tuple"),
          db, 1, 1⟩) := by
  refine ⟨fun l => ?_, fun l hl => ?_, fun l hl => ?_, fun db uid l o tt st h => ?_⟩
  · simp only [clampLimit, min_def, max_def]
    constructor <;> (split_ifs <;> omega)
  · simp only [clampLimit, min_def, max_def]
    split_ifs <;> omega
  · simp only [clampLimit, min_def, max_def]
    split_ifs <;> omega
  · unfold get_user_transactions
    simp [h]

/-- C5 (witness). -/
theorem C5_witness :
    get_user_transactions [] uuidZero 20 0 none none =
      ⟨.error (.typeError "comparison not supported between instances of int and tuple"),
       [], 1, 1⟩ :=
  C5_limit_clamp_and_get_user_transactions.2.2.2 [] uuidZero 20 0 none none (by decide)

/-- C7: `search_users` combines the username and email conditions with
AND, not OR: a user whose username matches the sanitized term while the
email does not is *excluded* from the result. -/
theorem C7_search_users_and_not_or :
    ilike "%ali%" aliceUser.username = true ∧
    ilike "%ali%" aliceUser.email = false ∧
    (search_users [aliceUser] "ali" 10).result = .ok [] := by
  refine ⟨by decide, by decide, by decide⟩

/-- C8: every modelled repository method except
`TransactionRepository.create_transaction` closes exactly the sessions it
opens, on every path; `create_transaction`'s session block (lines 86–94 of
`tx_repo.py`) opens a session and never closes it on either the commit or
the rollback path — and in fact `create_transaction` as a whole never even
opens a session, because the `Transaction(...)` constructor raises
`TypeError` first (misspelled model column). -/
theorem C8_session_release :
    (∀ db fid em un ph ok, (create_user db fid em un ph ok).opened =
      (create_user db fid em un ph ok).closed) ∧
    (∀ db uid, (get_user_by_id db uid).opened = (get_user_by_id db uid).closed) ∧
    (∀ db em, (get_user_by_email db em).opened = (get_user_by_email db em).closed) ∧
    (∀ db t l, (search_users db t l).opened = (search_users db t l).closed) ∧
    (∀ db uid fs ok, (update_user db uid fs ok).opened = (update_user db uid fs ok).closed) ∧
    (∀ db fid uid cur addr ok, (create_wallet db fid uid cur addr ok).opened =
      (create_wallet db fid uid cur addr ok).closed) ∧
    (∀ db wid, (get_wallet_by_id db wid).opened = (get_wallet_by_id db wid).closed) ∧
    (∀ db uid, (get_user_wallets db uid).opened = (get_user_wallets db uid).closed) ∧
    (∀ db wid nb ok, (update_wallet_balance db wid nb ok).opened =
      (update_wallet_balance db wid nb ok).closed) ∧
    (∀ db tid, (get_transaction_by_id db tid).opened = (get_transaction_by_id db tid).closed) ∧
    (∀ db uid l o tt st, (get_user_transactions db uid l o tt st).opened =
      (get_user_transactions db uid l o tt st).closed) ∧
    (∀ db tid st h ok, (update_transaction_status db tid st h ok).opened =
      (update_transaction_status db tid st h ok).closed) ∧
    (∀ db t l uid, (search_transactions db t l uid).opened =
      (search_transactions db t l uid).closed) ∧
    (∀ db tx ok, (create_transaction_session_block db tx ok).opened = 1 ∧
      (create_transaction_session_block db tx ok).closed = 0) ∧
    (∀ db fid uid wid ty am fe da ok,
      (create_transaction db fid uid wid ty am fe da ok).opened = 0 ∧
      (create_transaction db fid uid wid ty am fe da ok).closed = 0) := by
  refine ⟨?_, ?_, ?_, ?_, ?_, ?_, ?_, ?_, ?_, ?_, ?_, ?_, ?_, ?_, ?_⟩ <;> intros <;>
    first
      | (unfold create_user; repeat' split <;> try rfl)
      | (unfold get_user_by_id; repeat' split <;> try rfl)
      | (unfold get_user_by_email; repeat' split <;> try rfl)
      | (unfold search_users; rfl)
      | (unfold update_user; repeat' split <;> try rfl)
      | (unfold create_wallet; repeat' split <;> try rfl)
      | (unfold get_wallet_by_id; repeat' split <;> try rfl)
      | (unfold get_user_wallets; repeat' split <;> try rfl)
      | (unfold update_wallet_balance; repeat' split <;> try rfl)
      | (unfold get_transaction_by_id; repeat' split <;> try rfl)
      | (unfold get_user_transactions; repeat' split <;> try rfl)
      | (unfold update_transaction_status; repeat' split <;> try rfl)
      | (unfold search_transactions; repeat' split <;> try rfl)
      | (unfold create_transaction_session_block; constructor <;> (repeat' split <;> try rfl))
      | (unfold create_transaction create_transaction_session_block
          createTransactionKwargs transactionModelAttrs;
         constructor <;> (repeat' split <;> try rfl))

/-- C9: `update_user` with a valid user id and a field map containing only
disallowed names returns `False` before opening any session, leaving the
table untouched. -/
theorem C9_update_user_disallowed_fields (db : List User) (user_id : String)
    (fields : List (String × PyVal)) (commitOk : Bool)
    (hu : validate_uuid user_id = true)
    (hf : ∀ p ∈ fields, allowed_fields.contains p.1 = false) :
    update_user db user_id fields commitOk = ⟨.ok (some false), db, 0, 0⟩ := by
  unfold update_user
  simp [hu, build_update_data_disallowed fields hf]

/-- C9 (witness). -/
theorem C9_witness :
    update_user [aliceUser] uuidZero [("role", PyVal.str "admin")] true =
      ⟨.ok (some false), [aliceUser], 0, 0⟩ :=
  C9_update_user_disallowed_fields [aliceUser] uuidZero [("role", PyVal.str "admin")] true
    (by decide) (by decide)

/-- C10: when the currency is not one of the five supported codes, the
`currency and currency in patterns` guard fails and
`validate_crypto_address` falls back to trying every pattern — the same
result as omitting the currency. -/
theorem C10_unknown_currency_ignored (address c : String)
    (h : cryptoCurrencies.contains c = false) :
    validate_crypto_address address (some c) = validate_crypto_address address none := by
  have h2 : ¬ (c ∈ cryptoCurrencies) := by simpa using h
  unfold validate_crypto_address
  simp [h2]

/-- C10 (witness). -/
theorem C10_witness :
    validate_crypto_address "0x0123456789abcdef0123456789abcdef01234567" (some "USD") =
      validate_crypto_address "0x0123456789abcdef0123456789abcdef01234567" none :=
  C10_unknown_currency_ignored "0x0123456789abcdef0123456789abcdef01234567" "USD" (by decide)

/-! ## Helper lemmas about `uuid.UUID` acceptance (for C6) -/

/-- `Char.le` is toNat comparison. -/
theorem char_le_toNat {a b : Char} (h : a ≤ b) : a.toNat ≤ b.toNat := h

theorem hexVal_lt_16 (c : Char) (h : isHexDigitChar c = true) : hexVal c < 16 := by
  have e0 : '0'.toNat = 48 := rfl
  have e9 : '9'.toNat = 57 := rfl
  have ea : 'a'.toNat = 97 := rfl
  have ef : 'f'.toNat = 102 := rfl
  have eA : 'A'.toNat = 65 := rfl
  have eF : 'F'.toNat = 70 := rfl
  unfold isHexDigitChar isDigitChar at h
  simp only [Bool.or_eq_true, Bool.and_eq_true, decide_eq_true_eq] at h
  unfold hexVal isDigitChar
  split_ifs with hd he
  · simp only [Bool.and_eq_true, decide_eq_true_eq] at hd
    have t1 := char_le_toNat hd.1
    have t2 := char_le_toNat hd.2
    rw [e0] at t1
    rw [e9] at t2
    rw [e0]
    omega
  · simp only [Bool.and_eq_true, decide_eq_true_eq] at he
    have t1 := char_le_toNat he.1
    have t2 := char_le_toNat he.2
    rw [ea] at t1
    rw [ef] at t2
    rw [ea]
    omega
  · simp only [Bool.and_eq_true, decide_eq_true_eq] at hd he
    rcases h with (hh | hh) | hh
    · exact absurd hh hd
    · exact absurd hh he
    · have t1 := char_le_toNat hh.1
      have t2 := char_le_toNat hh.2
      rw [eA] at t1
      rw [eF] at t2
      rw [eA]
      omega

/-- On a string of hex digits the int-parsing loop succeeds, with a value
bounded by the number of digits. -/
theorem digitsLoop_all_hex :
    ∀ (cs : List Char) (acc : Nat) (st : Bool),
      (∀ c ∈ cs, isHexDigitChar c = true) → (cs = [] → st = true) →
      ∃ n : Nat, digitsLoop cs acc st = some n ∧ n < 16 ^ cs.length * (acc + 1) := by
  intro cs
  induction cs with
  | nil =>
    intro acc st _ hst
    refine ⟨acc, ?_, ?_⟩
    · rw [hst rfl]
      rfl
    · norm_num
  | cons c cs ih =>
    intro acc st hhex _
    have hc : isHexDigitChar c = true := hhex c (by simp)
    obtain ⟨n, hn, hb⟩ := ih (16 * acc + hexVal c) true
      (fun x hx => hhex x (by simp [hx])) (fun _ => rfl)
    refine ⟨n, ?_, ?_⟩
    · rw [digitsLoop.eq_def]
      simp [hc, hn]
    · have hv := hexVal_lt_16 c hc
      have hmono : 16 ^ cs.length * (16 * acc + hexVal c + 1) ≤ 16 ^ cs.length * (16 * (acc + 1)) := by
        apply Nat.mul_le_mul_left
        omega
      calc n < 16 ^ cs.length * (16 * acc + hexVal c + 1) := hb
        _ ≤ 16 ^ cs.length * (16 * (acc + 1)) := hmono
        _ = 16 ^ (c :: cs).length * (acc + 1) := by
              simp only [List.length_cons, pow_succ]
              ring

/-- A string without a colon contains no `urn:` occurrence. -/
theorem stripUrn_eq_self : ∀ cs : List Char, (':' : Char) ∉ cs → stripUrn cs = cs := by
  intro cs
  induction cs with
  | nil => intro _; rfl
  | cons c rest ih =>
    intro h
    rw [stripUrn.eq_def]
    split
    · rename_i rest2 heq
      injection heq with h1 h2
      subst h2
      simp at h
    · rename_i heq
      injection heq with h1 h2
      subst h1
      subst h2
      exact congrArg _ (ih (fun hm => h (List.mem_cons_of_mem _ hm)))
    · rename_i heq
      exact absurd heq (by simp)

/-- A string without a colon contains no `uuid:` occurrence. -/
theorem stripUuidColon_eq_self : ∀ cs : List Char, (':' : Char) ∉ cs → stripUuidColon cs = cs := by
  intro cs
  induction cs with
  | nil => intro _; rfl
  | cons c rest ih =>
    intro h
    rw [stripUuidColon.eq_def]
    split
    · rename_i rest2 heq
      injection heq with h1 h2
      subst h2
      simp at h
    · rename_i heq
      injection heq with h1 h2
      subst h1
      subst h2
      exact congrArg _ (ih (fun hm => h (List.mem_cons_of_mem _ hm)))
    · rename_i heq
      exact absurd heq (by simp)

theorem dropWhile_eq_self_of (p : Char → Bool) :
    ∀ cs : List Char, (∀ c ∈ cs, p c = false) → cs.dropWhile p = cs := by
  intro cs h
  cases cs with
  | nil => rfl
  | cons c rest =>
    have hc : p c = false := h c (by simp)
    simp [List.dropWhile_cons, hc]

theorem stripEnds_eq_self (p : Char → Bool) (cs : List Char)
    (h : ∀ c ∈ cs, p c = false) : stripEnds p cs = cs := by
  unfold stripEnds
  rw [dropWhile_eq_self_of p cs h,
    dropWhile_eq_self_of p cs.reverse (fun c hc => h c (List.mem_reverse.mp hc)),
    List.reverse_reverse]

/-- On strings of hex digits and hyphens the `uuid.UUID` cleaning step only
removes the hyphens. -/
theorem uuidClean_of_hex_dash (cs : List Char)
    (h : ∀ c ∈ cs, isHexDigitChar c = true ∨ c = '-') :
    uuidClean cs = cs.filter (fun c => c != '-') := by
  have hcolon : (':' : Char) ∉ cs := by
    intro hm
    rcases h ':' hm with hh | hh
    · exact absurd hh (by decide)
    · exact absurd hh (by decide)
  have hbrace : ∀ c ∈ cs, isBraceChar c = false := by
    intro c hc
    rcases h c hc with hh | rfl
    · cases hb : isBraceChar c
      · rfl
      · exfalso
        simp only [isBraceChar, Bool.or_eq_true, beq_iff_eq] at hb
        rcases hb with rfl | rfl
        · exact absurd hh (by decide)
        · exact absurd hh (by decide)
    · rfl
  unfold uuidClean
  rw [stripUrn_eq_self cs hcolon, stripUuidColon_eq_self cs hcolon,
    stripEnds_eq_self _ cs hbrace]

theorem filter_dash_of_hex (g : List Char) (h : ∀ c ∈ g, isHexDigitChar c = true) :
    g.filter (fun c => c != '-') = g := by
  apply List.filter_eq_self.mpr
  intro a ha
  have hne : a ≠ '-' := by
    intro heq
    subst heq
    exact absurd (h '-' ha) (by decide)
  simpa [bne_iff_ne] using hne

/-- On all-hex input the `0x` prefix branch of int parsing cannot fire. -/
theorem parseHexMagnitude_all_hex (cs : List Char)
    (h : ∀ c ∈ cs, isHexDigitChar c = true) :
    parseHexMagnitude cs = digitsLoop cs 0 false := by
  rw [parseHexMagnitude.eq_def]
  split
  · rename_i big x rest
    have hx := h x (by simp)
    have hxx : (x == 'x' || x == 'X') = false := by
      cases hb : (x == 'x' || x == 'X')
      · rfl
      · exfalso
        simp only [Bool.or_eq_true, beq_iff_eq] at hb
        rcases hb with rfl | rfl
        · exact absurd hx (by decide)
        · exact absurd hx (by decide)
    simp [hxx]
  · rfl

theorem pyIntHex_all_hex (cs : List Char) (hne : cs ≠ [])
    (h : ∀ c ∈ cs, isHexDigitChar c = true) :
    ∃ n : Nat, pyIntHex cs = some (n : Int) ∧ n < 16 ^ cs.length := by
  have hws : ∀ c ∈ cs, pyWhitespace c = false := by
    intro c hc
    cases hw : pyWhitespace c
    · rfl
    · exfalso
      have hx := h c hc
      simp only [pyWhitespace, Bool.or_eq_true, beq_iff_eq] at hw
      rcases hw with ((((rfl | rfl) | rfl) | rfl) | rfl) | rfl <;> exact absurd hx (by decide)
  have hstrip : stripEnds pyWhitespace cs = cs := stripEnds_eq_self _ cs hws
  obtain ⟨n, hn, hb⟩ := digitsLoop_all_hex cs 0 false h (fun he => absurd he hne)
  have hmag : parseHexMagnitude cs = digitsLoop cs 0 false := parseHexMagnitude_all_hex cs h
  refine ⟨n, ?_, by simpa using hb⟩
  rw [pyIntHex.eq_def, hstrip]
  split
  · have hp := h '+' (by simp)
    exact absurd hp (by decide)
  · have hp := h '-' (by simp)
    exact absurd hp (by decide)
  · rw [hmag, hn]
    rfl

/-- 32 hex digits are accepted by the cleaned-string check of `uuid.UUID`. -/
theorem pyUuidBody_of_hex32 (cs : List Char) (h : ∀ c ∈ cs, isHexDigitChar c = true)
    (hlen : cs.length = 32) : pyUuidBody cs = true := by
  have hne : cs ≠ [] := by
    intro he
    rw [he] at hlen
    simp at hlen
  obtain ⟨n, hn, hb⟩ := pyIntHex_all_hex cs hne h
  have hbn : n < 2 ^ 128 := by
    have h16 : (16 : Nat) ^ 32 = 2 ^ 128 := by norm_num
    rw [hlen, h16] at hb
    simpa using hb
  simp only [pyUuidBody]
  rw [hn, hlen]
  simp
  norm_num at hbn
  exact hbn

theorem pyUuidOk_hex_filter (cs : List Char)
    (h : ∀ c ∈ cs, isHexDigitChar c = true) (hlen : cs.length = 32) :
    pyUuidOk cs = true := by
  unfold pyUuidOk
  rw [uuidClean_of_hex_dash cs (fun c hc => Or.inl (h c hc)), filter_dash_of_hex cs h]
  exact pyUuidBody_of_hex32 cs h hlen

/-- Helper for C6: `validate_uuid` accepts both the canonical hyphenated
8-4-4-4-12 form and the same 32 hex digits with the hyphens removed. -/
theorem uuid_groups_accepted :
    ∀ g1 g2 g3 g4 g5 : List Char,
      g1.length = 8 → g2.length = 4 → g3.length = 4 → g4.length = 4 → g5.length = 12 →
      (∀ c ∈ g1 ++ (g2 ++ (g3 ++ (g4 ++ g5))), isHexDigitChar c = true) →
      validate_uuid (String.mk (g1 ++ '-' :: (g2 ++ '-' :: (g3 ++ '-' :: (g4 ++ '-' :: g5))))) = true ∧
      validate_uuid (String.mk (g1 ++ (g2 ++ (g3 ++ (g4 ++ g5))))) = true := by
  intro g1 g2 g3 g4 g5 l1 l2 l3 l4 l5 hhex
  have e1 := filter_dash_of_hex g1 (fun c hc => hhex c (by simp [hc]))
  have e2 := filter_dash_of_hex g2 (fun c hc => hhex c (by simp [hc]))
  have e3 := filter_dash_of_hex g3 (fun c hc => hhex c (by simp [hc]))
  have e4 := filter_dash_of_hex g4 (fun c hc => hhex c (by simp [hc]))
  have e5 := filter_dash_of_hex g5 (fun c hc => hhex c (by simp [hc]))
  constructor
  · show pyUuidOk (g1 ++ '-' :: (g2 ++ '-' :: (g3 ++ '-' :: (g4 ++ '-' :: g5)))) = true
    have hmem : ∀ c ∈ g1 ++ '-' :: (g2 ++ '-' :: (g3 ++ '-' :: (g4 ++ '-' :: g5))),
        isHexDigitChar c = true ∨ c = '-' := by
      intro c hc
      simp only [List.mem_append, List.mem_cons] at hc
      rcases hc with h1 | rfl | h1 | rfl | h1 | rfl | h1 | rfl | h1
      · exact Or.inl (hhex c (by simp [h1]))
      · exact Or.inr rfl
      · exact Or.inl (hhex c (by simp [h1]))
      · exact Or.inr rfl
      · exact Or.inl (hhex c (by simp [h1]))
      · exact Or.inr rfl
      · exact Or.inl (hhex c (by simp [h1]))
      · exact Or.inr rfl
      · exact Or.inl (hhex c (by simp [h1]))
    have hclean : uuidClean (g1 ++ '-' :: (g2 ++ '-' :: (g3 ++ '-' :: (g4 ++ '-' :: g5)))) =
        g1 ++ (g2 ++ (g3 ++ (g4 ++ g5))) := by
      rw [uuidClean_of_hex_dash _ hmem]
      simp [List.filter_append, e1, e2, e3, e4, e5]
    unfold pyUuidOk
    rw [hclean]
    exact pyUuidBody_of_hex32 _ hhex (by simp [l1, l2, l3, l4, l5])
  · exact pyUuidOk_hex_filter _ hhex (by simp [l1, l2, l3, l4, l5])

/-- Helper for C6: strings whose cleaned form does not have exactly 32
characters are rejected. -/
theorem uuid_bad_length_rejected (s : String)
    (h : (uuidClean s.data).length ≠ 32) : validate_uuid s = false := by
  unfold validate_uuid pyUuidOk pyUuidBody
  simp [h]

/-- C6 (counterexample): `validate_uuid` accepts a 32-hex-digit string
with no hyphens at all, contradicting the claim that strings missing the
hyphens of the canonical form are rejected. -/
theorem C6_counterexample :
    validate_uuid "00000000000000000000000000000000" = true := by decide

/-- C6 (amended): `validate_uuid` returns true for every canonical
8-4-4-4-12 hyphenated UUID string, but also for the same 32 hex digits
with the hyphens removed (`uuid.UUID` strips hyphens, braces and
`urn:`/`uuid:` markers before parsing); a string is rejected whenever its
cleaned form does not have exactly 32 characters. -/
theorem C6_validate_uuid_amended :
    (∀ g1 g2 g3 g4 g5 : List Char,
      g1.length = 8 → g2.length = 4 → g3.length = 4 → g4.length = 4 → g5.length = 12 →
      (∀ c ∈ g1 ++ (g2 ++ (g3 ++ (g4 ++ g5))), isHexDigitChar c = true) →
      validate_uuid (String.mk (g1 ++ '-' :: (g2 ++ '-' :: (g3 ++ '-' :: (g4 ++ '-' :: g5))))) = true ∧
      validate_uuid (String.mk (g1 ++ (g2 ++ (g3 ++ (g4 ++ g5))))) = true) ∧
    (∀ s : String, (uuidClean s.data).length ≠ 32 → validate_uuid s = false) :=
  ⟨uuid_groups_accepted, uuid_bad_length_rejected⟩

/-- C6 (witness): the amended theorem applied to a concrete canonical UUID
and to a concrete short string. -/
theorem C6_witness :
    validate_uuid (String.mk (['1','2','3','4','5','6','7','8'] ++ '-' ::
      (['1','2','3','4'] ++ '-' :: (['a','b','c','d'] ++ '-' ::
        (['e','f','0','0'] ++ '-' :: ['1','2','3','4','5','6','7','8','9','0','a','b']))))) = true ∧
    validate_uuid "abc" = false :=
  ⟨(C6_validate_uuid_amended.1 ['1','2','3','4','5','6','7','8'] ['1','2','3','4']
      ['a','b','c','d'] ['e','f','0','0'] ['1','2','3','4','5','6','7','8','9','0','a','b']
      (by decide) (by decide) (by decide) (by decide) (by decide) (by decide)).1,
   C6_validate_uuid_amended.2 "abc" (by decide)⟩
